import Mathlib

/-!
Verification development for the taste-to-lead scoring and lead-decision engine.

The definitions below are shallow embeddings of the corresponding functions in
the repository sources:
  * `server/geminiTagger.ts` — the `/api/buyer/swipe` handler (lead decision
    policy, dedup, notification priority), `getTopVibeFromProperty`,
    `getListingVector`, `buyerSwipeSchema`.
  * `server/routes.ts` — the legacy `/api/swipe` handler (taste-profile
    counter, `>85`/`>95` notification thresholds), `/api/properties`
    taste-score ranking, `/api/user/stats` aggregation.
  * `shared/schema.ts` — `swipeSchema` validation.
  * `client/src/pages/consumer.tsx` — `computeMatchScore`.

JavaScript numbers are modelled as `ℚ` (scores that the server compares are
also kept as integers where the code only ever produces integers), JS
`Math.round` as round-half-up on `ℚ`, and JS objects used as string-keyed
counter maps as insertion-ordered association lists.

The module `shared/tasteAlgorithm.ts` (`VIBES`, `computeVectorMatchScore`,
`computeBuyerVibeVector`, `VIBE_DEFINITIONS`) and the `DatabaseStorage`
implementation used by `/api/buyer/swipe` are not present in the sources;
the few definitions needed from them are modelled from the spec and carry a
doc comment saying so.
-/

namespace TasteToLead

/-- JavaScript `Math.round`: round half toward positive infinity. -/
def jsRound (q : ℚ) : ℤ := ⌊q + 1/2⌋

/-- The eight named archetypes plus nothing else.

Modelled from the spec: the constant `VIBES` lives in the missing
`shared/tasteAlgorithm.ts`; spec §2/§3 fix a closed set of 8 named archetypes
(`Unclassified` is a sentinel, not a member), and the archetype tables in
`server/routes.ts` (staging hooks, staging styles) and the client list the
same eight names. -/
def VIBES : List String :=
  ["Monarch", "Industrialist", "Purist", "Naturalist", "Futurist", "Curator", "Nomad", "Classicist"]

/-- `z.enum(["like", "nope", "save", "skip"])` from `buyerSwipeSchema` in
`server/geminiTagger.ts`. -/
inductive BuyerSwipeAction where
  | like
  | nope
  | save
  | skip
deriving DecidableEq, Repr

/-- One entry of a listing's `vibeTop` ranked list. -/
structure TopVibe where
  vibe : String
  score : ℚ
deriving DecidableEq, Repr

/-- The fields of a property record that the `/api/buyer/swipe` handler and
`getListingVector` read.  `vibeVector` is `none` when the column is null /
not an object. -/
structure BuyerProperty where
  id : ℕ
  agentId : Option String
  vibeTag : String
  vibeTop : List TopVibe
  vibeVector : Option (List (String × ℚ))
deriving DecidableEq, Repr

/-- `getTopVibeFromProperty` from `server/geminiTagger.ts`: the first `vibeTop`
entry when its vibe is a member of `VIBES`, else the `vibeTag` when that is a
member of `VIBES`, else nothing.  The emptiness tests model JS truthiness of
the strings. -/
def getTopVibeFromProperty (property : BuyerProperty) : Option String :=
  match property.vibeTop.head? with
  | some t =>
      if t.vibe ≠ "" ∧ VIBES.contains t.vibe then some t.vibe
      else if property.vibeTag ≠ "" ∧ VIBES.contains property.vibeTag then some property.vibeTag
      else none
  | none =>
      if property.vibeTag ≠ "" ∧ VIBES.contains property.vibeTag then some property.vibeTag
      else none

/-- `getListingVector` from `server/geminiTagger.ts`: the stored `vibeVector`
when present, else a one-hot vector on the top vibe, else no vector. -/
def getListingVector (property : BuyerProperty) : Option (List (String × ℚ)) :=
  match property.vibeVector with
  | some raw => some raw
  | none =>
      match getTopVibeFromProperty property with
      | some top => some (VIBES.map (fun v => (v, if v = top then 1 else 0)))
      | none => none

/-- Weight of a key in an archetype-weight vector; absent keys weigh 0. -/
def vecGet (l : List (String × ℚ)) (k : String) : ℚ :=
  match l.find? (fun e => e.1 == k) with
  | some e => e.2
  | none => 0

/-- Modelled from the spec: `computeVectorMatchScore` lives in the missing
`shared/tasteAlgorithm.ts`.  Spec §4.3: with "no vector" the scorer returns a
neutral zero score instead of throwing; with an all-zero buyer vector it
returns 0; otherwise it rescales the dot-product overlap between the buyer
and listing vectors monotonically into [0,100], clamped and rounded to an
integer. -/
def computeVectorMatchScore (buyer : List (String × ℚ)) (listing : Option (List (String × ℚ))) : ℤ :=
  match listing with
  | none => 0
  | some lv =>
      let dot := (buyer.map (fun bv => bv.2 * vecGet lv bv.1)).sum
      let total := (buyer.map (fun bv => bv.2)).sum
      if total ≤ 0 then 0 else min 100 (max 0 (jsRound (100 * dot / total)))

/-- One buyer event joined with its listing's top vibe, as the
`/api/buyer/swipe` and `/api/buyer/profile` handlers build it before
aggregation. -/
structure BuyerVibeEvent where
  action : BuyerSwipeAction
  vibe : Option String
deriving DecidableEq, Repr

/-- Modelled from the spec: the action-weight table of the missing
`shared/tasteAlgorithm.ts`.  Spec §4.2 fixes `save` > `like` > `skip` ≥
`nope` with the example table save 3, like 1, skip 0, nope 0 (`nope` never
increases affinity). -/
def actionWeight : BuyerSwipeAction → ℚ
  | .save => 3
  | .like => 1
  | .skip => 0
  | .nope => 0

/-- A buyer profile: accumulated archetype weights plus the derived ranked
top-vibes list. -/
structure BuyerVibeProfile where
  vector : List (String × ℚ)
  topVibes : List TopVibe
deriving DecidableEq, Repr

/-- Modelled from the spec: `computeBuyerVibeVector` lives in the missing
`shared/tasteAlgorithm.ts`.  Spec §4.2: events whose listing contributes no
vibe are skipped; every other event adds its action's weight to its
listing's top vibe; the top-vibes list ranks the positive-weight archetypes
by accumulated weight descending with ties broken by the archetype
enumeration order (a stable sort over the `VIBES` order). -/
def computeBuyerVibeVector (events : List BuyerVibeEvent) : BuyerVibeProfile :=
  let weightOf : String → ℚ := fun v =>
    ((events.filter (fun e => e.vibe == some v)).map (fun e => actionWeight e.action)).sum
  let vector := VIBES.map (fun v => (v, weightOf v))
  let positive := vector.filter (fun e => decide (0 < e.2))
  let ranked := positive.insertionSort (fun a b => b.2 ≤ a.2)
  { vector := vector, topVibes := ranked.map (fun e => { vibe := e.1, score := e.2 }) }

/-- The fields of a stored Lead row that the dedup logic and the claims
read (`storage.createLead` in `server/geminiTagger.ts` stores many more). -/
structure LeadRec where
  propertyId : ℕ
  buyerId : String
  matchScore : ℤ
deriving DecidableEq, Repr

/-- The fields of a stored notification row that the claims read. -/
structure NotifRec where
  recipientId : Option String
  priority : String
  matchScore : ℤ
deriving DecidableEq, Repr

/-- One stored buyer swipe event (`storage.createSwipeEvent`). -/
structure SwipeEventRec where
  buyerId : String
  listingId : ℕ
  action : BuyerSwipeAction
  dwellMs : ℕ
deriving DecidableEq, Repr

/-- The slice of server state that `/api/buyer/swipe` reads and writes. -/
structure BuyerState where
  events : List SwipeEventRec
  leads : List LeadRec
  notifications : List NotifRec
deriving DecidableEq, Repr

def emptyBuyerState : BuyerState := { events := [], leads := [], notifications := [] }

/-- Modelled from the spec: `DatabaseStorage.getLeadByBuyerAndProperty` is not
under the sources; per its call site and spec §4.4 it looks up the stored
Lead for the (buyer, listing) pair, if any. -/
def getLeadByBuyerAndProperty (leads : List LeadRec) (buyerId : String) (propertyId : ℕ) : Option LeadRec :=
  leads.find? (fun l => l.buyerId == buyerId && l.propertyId == propertyId)

/-- The JSON body answered by `/api/buyer/swipe` (the fields the claims
read). -/
structure BuyerSwipeResult where
  matchScore : ℤ
  leadCreated : Bool
  hotLead : Bool
deriving DecidableEq, Repr

/-- The decision tail of the `/api/buyer/swipe` handler in
`server/geminiTagger.ts` (lines 780-864), taking the match score computed
earlier in the handler as an input: record the swipe event; when the action
is `save` or the score is at least 85, look up an existing lead for the
(buyer, listing) pair; when none exists create a lead and a notification
whose priority is `critical` when the score is at least 95 and `high`
otherwise; answer with `leadCreated` and `hotLead = matchScore >= 95`. -/
def buyerSwipeDecision (buyerId : String) (listing : BuyerProperty) (action : BuyerSwipeAction)
    (dwellMs : ℕ) (matchScore : ℤ) (s : BuyerState) : BuyerState × BuyerSwipeResult :=
  let s0 : BuyerState :=
    { s with events := s.events ++ [{ buyerId := buyerId, listingId := listing.id, action := action, dwellMs := dwellMs }] }
  if action = .save ∨ matchScore ≥ 85 then
    match getLeadByBuyerAndProperty s0.leads buyerId listing.id with
    | some _ =>
        (s0, { matchScore := matchScore, leadCreated := false, hotLead := matchScore ≥ 95 })
    | none =>
        let hotLead : Bool := matchScore ≥ 95
        let s1 : BuyerState :=
          { s0 with
            leads := s0.leads ++ [{ propertyId := listing.id, buyerId := buyerId, matchScore := matchScore }],
            notifications := s0.notifications ++
              [{ recipientId := listing.agentId,
                 priority := if hotLead then "critical" else "high",
                 matchScore := matchScore }] }
        (s1, { matchScore := matchScore, leadCreated := true, hotLead := matchScore ≥ 95 })
  else
    (s0, { matchScore := matchScore, leadCreated := false, hotLead := matchScore ≥ 95 })

/-- One inbound `/api/buyer/swipe` request, with the score the handler's
scoring phase computes for it. -/
structure SwipeInput where
  buyerId : String
  listing : BuyerProperty
  action : BuyerSwipeAction
  dwellMs : ℕ
  matchScore : ℤ
deriving Repr

/-- Sequential processing of a list of buyer swipe requests. -/
def runBuyerSwipes (inputs : List SwipeInput) (s : BuyerState) : BuyerState :=
  inputs.foldl (fun st inp => (buyerSwipeDecision inp.buyerId inp.listing inp.action inp.dwellMs inp.matchScore st).1) s

/-- How many stored leads exist for a (buyer, listing) pair. -/
def leadCountFor (leads : List LeadRec) (buyerId : String) (propertyId : ℕ) : ℕ :=
  (leads.filter (fun l => l.buyerId == buyerId && l.propertyId == propertyId)).length

/-- The `/api/buyer/swipe` handler including its scoring phase
(`server/geminiTagger.ts` lines 780-864): record the swipe event, re-read
the buyer's events, join each with its listing's top vibe through the
listing store (`listingOf`, the modelled `getPropertiesByIds` lookup),
rebuild the buyer profile, score it against the target listing's vector,
and apply the decision tail. -/
def processBuyerSwipe (buyerId : String) (listing : BuyerProperty) (action : BuyerSwipeAction)
    (dwellMs : ℕ) (listingOf : ℕ → Option BuyerProperty) (s : BuyerState) :
    BuyerState × BuyerSwipeResult :=
  let newEvents := s.events ++
    [{ buyerId := buyerId, listingId := listing.id, action := action, dwellMs := dwellMs }]
  let myEvents := newEvents.filter (fun e => e.buyerId == buyerId)
  let buyerVibeEvents : List BuyerVibeEvent := myEvents.map (fun e =>
    { action := e.action, vibe := (listingOf e.listingId).bind getTopVibeFromProperty })
  let buyerProfile := computeBuyerVibeVector buyerVibeEvents
  let listingVector := getListingVector listing
  let matchScore := computeVectorMatchScore buyerProfile.vector listingVector
  buyerSwipeDecision buyerId listing action dwellMs matchScore s

/-- `z.enum(["left", "right"])` from `swipeSchema` in `shared/schema.ts`. -/
inductive SwipeDirection where
  | left
  | right
deriving DecidableEq, Repr

/-- A raw `/api/swipe` request body before validation. -/
structure SwipeBody where
  propertyId : ℚ
  direction : String
  userName : Option String
  matchScore : ℚ
  matchedTags : Option (List String)
deriving DecidableEq, Repr

/-- A `/api/swipe` body after `swipeSchema.parse` succeeded. -/
structure ParsedSwipe where
  propertyId : ℚ
  direction : SwipeDirection
  userName : Option String
  matchScore : ℚ
  matchedTags : Option (List String)
deriving DecidableEq, Repr

/-- `swipeSchema` from `shared/schema.ts`: `direction` must be `left` or
`right` and `matchScore` must satisfy `.min(0).max(100)`; parsing fails
(HTTP 400 in the handler) otherwise. -/
def swipeSchemaParse (b : SwipeBody) : Option ParsedSwipe :=
  let dir : Option SwipeDirection :=
    if b.direction = "left" then some .left
    else if b.direction = "right" then some .right
    else none
  match dir with
  | none => none
  | some d =>
      if 0 ≤ b.matchScore ∧ b.matchScore ≤ 100 then
        some { propertyId := b.propertyId, direction := d, userName := b.userName,
               matchScore := b.matchScore, matchedTags := b.matchedTags }
      else none

/-- The fields of a property row that the legacy `/api/swipe` and
`/api/user/stats` handlers read. -/
structure LegacyProperty where
  id : ℕ
  agentId : String
  title : String
  vibeTag : String
deriving DecidableEq, Repr

/-- A notification created by the legacy `/api/swipe` handler. -/
structure LegacyNotif where
  recipientId : String
  priority : String
  matchScore : ℚ
deriving DecidableEq, Repr

/-- The per-session state the legacy `/api/swipe` handler reads and writes:
the session taste profile (a JS object used as an Archetype → count map,
modelled as an insertion-ordered association list) and the notification
store. -/
structure LegacyState where
  tasteProfile : List (String × ℕ)
  notifications : List LegacyNotif
deriving DecidableEq, Repr

def emptyLegacyState : LegacyState := { tasteProfile := [], notifications := [] }

/-- JS `obj[tag] = (obj[tag] || 0) + 1` on a string-keyed counter object:
bump the entry for `tag` in place, or append a fresh entry with count 1. -/
def profileBump : List (String × ℕ) → String → List (String × ℕ)
  | [], tag => [(tag, 1)]
  | e :: rest, tag => if e.1 = tag then (e.1, e.2 + 1) :: rest else e :: profileBump rest tag

/-- JS `obj[k]` read on a counter object, with `undefined` read as 0. -/
def profLookup : List (String × ℕ) → String → ℕ
  | [], _ => 0
  | e :: rest, k => if e.1 = k then e.2 else profLookup rest k

/-- The taste-profile update of the legacy `/api/swipe` handler
(`server/routes.ts` lines 480-486): on a right swipe whose property has a
truthy `vibeTag` other than `"Unclassified"`, bump that tag's session
counter; otherwise leave the profile alone. -/
def updateTasteProfile (direction : SwipeDirection) (vibeTag : String)
    (profile : List (String × ℕ)) : List (String × ℕ) :=
  if direction = .right ∧ vibeTag ≠ "" ∧ vibeTag ≠ "Unclassified" then profileBump profile vibeTag
  else profile

/-- The legacy `/api/swipe` handler (`server/routes.ts` lines 464-538) after
a successful parse: update the session taste profile, and on a right swipe
with `matchScore > 85` create a notification whose priority is `critical`
when `matchScore > 95` and `high` otherwise.  Returns the new state and the
notification answered to the client (`null` when none was created). -/
def legacySwipeParsed (parsed : ParsedSwipe) (property : LegacyProperty)
    (s : LegacyState) : LegacyState × Option LegacyNotif :=
  let profile' := updateTasteProfile parsed.direction property.vibeTag s.tasteProfile
  if parsed.direction = .right ∧ parsed.matchScore > 85 then
    let isCritical := parsed.matchScore > 95
    let priority := if isCritical then "critical" else "high"
    let notif : LegacyNotif :=
      { recipientId := property.agentId, priority := priority, matchScore := parsed.matchScore }
    ({ tasteProfile := profile', notifications := s.notifications ++ [notif] }, some notif)
  else
    ({ tasteProfile := profile', notifications := s.notifications }, none)

/-- The legacy `/api/swipe` handler including validation: `none` models the
HTTP 400 rejection when `swipeSchema.parse` throws. -/
def legacySwipe (body : SwipeBody) (property : LegacyProperty)
    (s : LegacyState) : Option (LegacyState × Option LegacyNotif) :=
  (swipeSchemaParse body).map (fun parsed => legacySwipeParsed parsed property s)

/-- The vibe a right-swipe event contributes to `/api/user/stats` counting:
its property's `vibeTag` when the property was found and the tag is truthy
and not `"Unclassified"`. -/
def taggedVibe (p : Option LegacyProperty) : Option String :=
  match p with
  | some property =>
      if property.vibeTag ≠ "" ∧ property.vibeTag ≠ "Unclassified" then some property.vibeTag
      else none
  | none => none

/-- One iteration of the `/api/user/stats` counting loop
(`server/routes.ts` lines 420-426). -/
def vibeCountsStep (m : List (String × ℕ)) (p : Option LegacyProperty) : List (String × ℕ) :=
  match p with
  | some property =>
      if property.vibeTag ≠ "" ∧ property.vibeTag ≠ "Unclassified" then profileBump m property.vibeTag
      else m
  | none => m

/-- `vibeCounts` as accumulated by `/api/user/stats` over the session's
right swipes (each given as its property lookup result), in read order. -/
def vibeCounts (events : List (Option LegacyProperty)) : List (String × ℕ) :=
  events.foldl vibeCountsStep []

/-- `totalTagged` as accumulated by the same loop. -/
def totalTagged (events : List (Option LegacyProperty)) : ℕ :=
  (events.filter (fun p => (taggedVibe p).isSome)).length

/-- One entry of the `vibePercentages` array answered by `/api/user/stats`. -/
structure VibeEntry where
  vibe : String
  count : ℕ
  percentage : ℤ
deriving DecidableEq, Repr

/-- `vibePercentages` from `/api/user/stats` (`server/routes.ts` lines
428-434): map the accumulated counts to entries with a rounded percentage,
then sort by count descending.  JS `Array.prototype.sort` is stable, and
`List.insertionSort` with this total preorder computes exactly the stable
descending sort, so ties keep the counter map's insertion order (order of
first occurrence in the event list). -/
def vibePercentages (events : List (Option LegacyProperty)) : List VibeEntry :=
  let tt := totalTagged events
  let entries := (vibeCounts events).map (fun e =>
    { vibe := e.1, count := e.2,
      percentage := if 0 < tt then jsRound ((e.2 : ℚ) / (tt : ℚ) * 100) else 0 : VibeEntry })
  entries.insertionSort (fun a b => b.count ≤ a.count)

/-- `topVibe` from `/api/user/stats`: the vibe of the first sorted entry. -/
def statsTopVibe (events : List (Option LegacyProperty)) : Option String :=
  (vibePercentages events).head?.map (fun e => e.vibe)

/-- The taste-score ranking of `/api/properties` (`server/routes.ts` lines
285-295): with the session taste profile non-empty, a property scores
`round(count[tag] / totalSwipes * 100)` when its `vibeTag` is truthy, not
`"Unclassified"`, and has a truthy session count; otherwise 0. -/
def tasteScore (tasteProfile : List (String × ℕ)) (vibeTag : String) : ℤ :=
  let totalSwipes : ℕ := (tasteProfile.map (fun e => e.2)).sum
  let tag := if vibeTag = "" then "Unclassified" else vibeTag
  if tag ≠ "Unclassified" ∧ profLookup tasteProfile tag ≠ 0 then
    jsRound ((profLookup tasteProfile tag : ℚ) / (totalSwipes : ℚ) * 100)
  else 0

/-- The fields of a property that `computeMatchScore` in
`client/src/pages/consumer.tsx` reads. -/
structure ConsumerProperty where
  price : ℚ
  bedrooms : ℤ
  vibe : String
  tags : List String
deriving DecidableEq, Repr

/-- The onboarding wizard's filter object (`client/src/pages/consumer.tsx`). -/
structure OnboardingData where
  location : String
  state : String
  budgetMin : ℚ
  budgetMax : ℚ
  bedrooms : String
  vibe : String
  mustHaves : List String
  dealBreakers : List String
deriving DecidableEq, Repr

/-- `s.replace("+", "")` as applied to the wizard's bedroom strings (at most
one `+`, so removing every `+` agrees with JS replace-first). -/
def stripPlus (s : String) : String :=
  ⟨s.data.filter (fun c => c ≠ '+')⟩

/-- Decimal value of a list of digit characters. -/
def digitsToNat (ds : List Char) : ℕ :=
  ds.foldl (fun acc c => 10 * acc + (c.toNat - 48)) 0

/-- JS `parseInt(s, 10)` on the wizard's bedroom strings: the value of the
leading decimal digits, or NaN (`none`) when there are none.  (Sign and
leading-whitespace handling of full `parseInt` never arises for the wizard
options `"Studio"`, `"1"`, `"2"`, `"3+"`.) -/
def jsParseInt (s : String) : Option ℤ :=
  match s.data.takeWhile Char.isDigit with
  | [] => none
  | ds => some (digitsToNat ds : ℕ)

/-- JS `x === target` where `target` may be NaN (`none`): NaN compares false. -/
def jsNumEq (target : Option ℤ) (x : ℤ) : Bool :=
  match target with
  | some t => x == t
  | none => false

/-- JS `Math.abs(x - target) === 1` where `target` may be NaN: false on NaN. -/
def jsAbsDiffOne (target : Option ℤ) (x : ℤ) : Bool :=
  match target with
  | some t => (x - t).natAbs == 1
  | none => false

/-- The vibe block of `computeMatchScore`: (score increment, maxScore
increment). -/
def vibeAspect (property : ConsumerProperty) (f : OnboardingData) : ℕ × ℕ :=
  if f.vibe ≠ "" ∧ f.vibe ≠ "all" then
    (if property.vibe = f.vibe then 30 else 0, 30)
  else (0, 0)

/-- `filters.bedrooms === "Studio" ? 0 : parseInt(filters.bedrooms.replace("+", ""), 10)`. -/
def bedroomTarget (f : OnboardingData) : Option ℤ :=
  if f.bedrooms = "Studio" then some 0 else jsParseInt (stripPlus f.bedrooms)

/-- The bedroom block of `computeMatchScore`: exact match 30, off by one 15. -/
def bedroomAspect (property : ConsumerProperty) (f : OnboardingData) : ℕ × ℕ :=
  (if jsNumEq (bedroomTarget f) property.bedrooms then 30
   else if jsAbsDiffOne (bedroomTarget f) property.bedrooms then 15
   else 0, 30)

/-- The price block of `computeMatchScore`: 30 inside the budget window
(`budgetMax || Infinity` models a falsy max as no upper bound), else 15 when
under the minimum by less than 20% of it (`budgetMin || 1` in the
denominator). -/
def priceAspect (property : ConsumerProperty) (f : OnboardingData) : ℕ × ℕ :=
  (if f.budgetMin ≤ property.price ∧ (f.budgetMax = 0 ∨ property.price ≤ f.budgetMax) then 30
   else if property.price < f.budgetMin then
     (if (f.budgetMin - property.price) / (if f.budgetMin = 0 then 1 else f.budgetMin) < 1/5 then 15
      else 0)
   else 0, 30)

/-- The must-haves boost of `computeMatchScore`: 10 per matched lifestyle
tag, against 10 per requested tag, skipped entirely when none were
requested. -/
def mustHaveAspect (property : ConsumerProperty) (f : OnboardingData) : ℕ × ℕ :=
  if f.mustHaves ≠ [] then
    ((f.mustHaves.filter (fun tag => property.tags.contains tag)).length * 10,
     f.mustHaves.length * 10)
  else (0, 0)

/-- The under-budget bonus of `computeMatchScore`. -/
def underBudgetAspect (property : ConsumerProperty) (f : OnboardingData) : ℕ × ℕ :=
  if f.budgetMax ≠ 0 ∧ property.price < f.budgetMax * (9/10) then (5, 5) else (0, 5)

/-- The exact-bedroom bonus of `computeMatchScore`. -/
def bedroomBonusAspect (property : ConsumerProperty) (f : OnboardingData) : ℕ × ℕ :=
  if jsNumEq (bedroomTarget f) property.bedrooms then (5, 5) else (0, 5)

/-- The accumulated (score, maxScore) pair of `computeMatchScore`. -/
def matchScoreParts (property : ConsumerProperty) (f : OnboardingData) : ℕ × ℕ :=
  ((vibeAspect property f).1 + (bedroomAspect property f).1 + (priceAspect property f).1 +
     (mustHaveAspect property f).1 + (underBudgetAspect property f).1 +
     (bedroomBonusAspect property f).1,
   (vibeAspect property f).2 + (bedroomAspect property f).2 + (priceAspect property f).2 +
     (mustHaveAspect property f).2 + (underBudgetAspect property f).2 +
     (bedroomBonusAspect property f).2)

/-- `computeMatchScore` from `client/src/pages/consumer.tsx` (lines 271-319):
0 with null filters, otherwise `Math.round((score / maxScore) * 100)` over
the blocks above, accumulated in source order. -/
def computeMatchScore (property : ConsumerProperty) (filters : Option OnboardingData) : ℤ :=
  match filters with
  | none => 0
  | some f =>
      let parts := matchScoreParts property f
      jsRound ((parts.1 : ℚ) / (parts.2 : ℚ) * 100)

/-- A concrete Monarch-tagged listing (no stored vector, no breakdown). -/
def listingMonarch : BuyerProperty :=
  { id := 1, agentId := some "agent-1", vibeTag := "Monarch", vibeTop := [], vibeVector := none }

/-- A concrete listing whose only signal is the `Unclassified` tag. -/
def listingUnclassified : BuyerProperty :=
  { id := 2, agentId := some "agent-1", vibeTag := "Unclassified", vibeTop := [], vibeVector := none }

/-- A concrete Monarch-tagged property row for the legacy handlers. -/
def legacyPropMonarch : LegacyProperty :=
  { id := 1, agentId := "agent-1", title := "Penthouse", vibeTag := "Monarch" }

/-- A concrete Purist-tagged property row for the legacy handlers. -/
def legacyPropPurist : LegacyProperty :=
  { id := 2, agentId := "agent-1", title := "Loft", vibeTag := "Purist" }

/-- The wizard's default filters (state step left untouched). -/
def defaultFilters : OnboardingData :=
  { location := "", state := "Anywhere", budgetMin := 100000, budgetMax := 10000000,
    bedrooms := "2", vibe := "all", mustHaves := [], dealBreakers := [] }

/-- A concrete in-budget two-bedroom property for the client-side scorer. -/
def sampleProperty : ConsumerProperty :=
  { price := 500000, bedrooms := 2, vibe := "Monarch", tags := [] }

/-- A second Monarch-tagged listing, liked earlier by the demo buyer. -/
def listingMonarchTwo : BuyerProperty :=
  { id := 2, agentId := some "agent-1", vibeTag := "Monarch", vibeTop := [], vibeVector := none }

/-- A store state reachable through the handler itself: buyer `"b"` earlier
liked listing 2 (score 100 on the one-like Monarch profile), which created
the (b, 2) lead and its critical notification; no lead exists for
listing 1. -/
def priorLikeState : BuyerState :=
  { events := [{ buyerId := "b", listingId := 2, action := .like, dwellMs := 0 }],
    leads := [{ propertyId := 2, buyerId := "b", matchScore := 100 }],
    notifications := [{ recipientId := some "agent-1", priority := "critical", matchScore := 100 }] }

/-- The listing store for the demo scenario. -/
def demoListingStore : ℕ → Option BuyerProperty :=
  fun id => if id = 1 then some listingMonarch else if id = 2 then some listingMonarchTwo else none

/-- A server state that already holds a lead for buyer `"b"` on listing 1. -/
def dupState : BuyerState :=
  { events := [],
    leads := [{ propertyId := 1, buyerId := "b", matchScore := 90 }],
    notifications := [] }

/-- An in-range `/api/swipe` body used to witness schema acceptance. -/
def okSwipeBody : SwipeBody :=
  { propertyId := 1, direction := "right", userName := none, matchScore := 90, matchedTags := none }

/-- Unfolding of the full handler: the decision tail applied to the score
computed from the stored events (including the one just recorded). -/
theorem processBuyerSwipe_eq (buyerId : String) (listing : BuyerProperty)
    (action : BuyerSwipeAction) (dwellMs : ℕ) (listingOf : ℕ → Option BuyerProperty)
    (s : BuyerState) :
    processBuyerSwipe buyerId listing action dwellMs listingOf s =
      buyerSwipeDecision buyerId listing action dwellMs
        (computeVectorMatchScore
          (computeBuyerVibeVector
            (((s.events ++
                [({ buyerId := buyerId, listingId := listing.id, action := action,
                    dwellMs := dwellMs } : SwipeEventRec)]).filter
                  (fun e => e.buyerId == buyerId)).map
              (fun e => ({ action := e.action,
                           vibe := (listingOf e.listingId).bind getTopVibeFromProperty } :
                         BuyerVibeEvent)))).vector
          (getListingVector listing)) s := rfl

/-- The demo pre-state is reachable: it is exactly the store left by the
buyer's earlier like on listing 2, processed by the handler from an empty
store. -/
theorem priorLikeState_reachable :
    (processBuyerSwipe "b" listingMonarchTwo .like 0 demoListingStore emptyBuyerState).1 =
      priorLikeState := by
  have hlv2 : getListingVector listingMonarchTwo =
      some [("Monarch", 1), ("Industrialist", 0), ("Purist", 0), ("Naturalist", 0),
            ("Futurist", 0), ("Curator", 0), ("Nomad", 0), ("Classicist", 0)] := by
    simp +decide [getListingVector, getTopVibeFromProperty, listingMonarchTwo, VIBES]
  have hev : ((emptyBuyerState.events ++
        [({ buyerId := "b", listingId := listingMonarchTwo.id, action := .like,
            dwellMs := 0 } : SwipeEventRec)]).filter
          (fun e => e.buyerId == "b")).map
      (fun e => ({ action := e.action,
                   vibe := (demoListingStore e.listingId).bind getTopVibeFromProperty } :
                 BuyerVibeEvent)) =
      [{ action := .like, vibe := some "Monarch" }] := by
    decide
  have hvec : (computeBuyerVibeVector [{ action := .like, vibe := some "Monarch" }]).vector =
      [("Monarch", 1), ("Industrialist", 0), ("Purist", 0), ("Naturalist", 0),
       ("Futurist", 0), ("Curator", 0), ("Nomad", 0), ("Classicist", 0)] := by
    simp +decide [computeBuyerVibeVector, actionWeight, VIBES]
  have hscore : computeVectorMatchScore
      (computeBuyerVibeVector [{ action := .like, vibe := some "Monarch" }]).vector
      (getListingVector listingMonarchTwo) = 100 := by
    rw [hvec, hlv2, computeVectorMatchScore]
    simp +decide [vecGet]
    norm_num [jsRound]
  rw [processBuyerSwipe_eq, hev, hscore]
  decide

/-- Rounding a ratio of naturals with `a ≤ b` to a percentage stays in
[0, 100]. -/
theorem jsRound_ratio_bounds (a b : ℕ) (hab : a ≤ b) (hb : 0 < b) :
    0 ≤ jsRound ((a : ℚ) / (b : ℚ) * 100) ∧ jsRound ((a : ℚ) / (b : ℚ) * 100) ≤ 100 := by
  have hb' : (0 : ℚ) < (b : ℚ) := by exact_mod_cast hb
  have h0 : (0 : ℚ) ≤ (a : ℚ) / (b : ℚ) * 100 := by positivity
  have h1 : (a : ℚ) / (b : ℚ) * 100 ≤ 100 := by
    have hle : (a : ℚ) / (b : ℚ) ≤ 1 := by
      rw [div_le_one hb']
      exact_mod_cast hab
    nlinarith
  constructor
  · rw [jsRound]
    exact Int.le_floor.mpr (by push_cast; linarith)
  · rw [jsRound]
    have hlt : ⌊(a : ℚ) / (b : ℚ) * 100 + 1 / 2⌋ < 101 := Int.floor_lt.mpr (by push_cast; linarith)
    omega

/-- The lead lookup misses exactly when the pair's lead count is zero. -/
theorem getLead_none_iff (leads : List LeadRec) (b : String) (p : ℕ) :
    getLeadByBuyerAndProperty leads b p = none ↔ leadCountFor leads b p = 0 := by
  induction leads with
  | nil => simp [getLeadByBuyerAndProperty, leadCountFor]
  | cons l rest ih =>
    by_cases h : (l.buyerId == b && l.propertyId == p) = true
    · simp [getLeadByBuyerAndProperty, leadCountFor, List.find?, List.filter, h] at *
    · simp only [getLeadByBuyerAndProperty, leadCountFor, List.find?, List.filter, h] at *
      simpa [h] using ih

/-- Appending one lead row adds one to the count of its own pair and leaves
every other pair's count unchanged. -/
theorem leadCountFor_append_single (leads : List LeadRec) (x : LeadRec) (b : String) (p : ℕ) :
    leadCountFor (leads ++ [x]) b p =
      leadCountFor leads b p + (if x.buyerId = b ∧ x.propertyId = p then 1 else 0) := by
  by_cases h : x.buyerId = b ∧ x.propertyId = p
  · simp [leadCountFor, List.filter_append, List.filter, h.1, h.2, h]
  · have hx : (x.buyerId == b && x.propertyId == p) = false := by
      rcases not_and_or.mp h with h1 | h1 <;> simp [h1]
    simp [leadCountFor, List.filter_append, List.filter, hx, h]

/-- One `/api/buyer/swipe` request preserves "at most one lead per pair". -/
theorem leadCount_step_le (inp : SwipeInput) (s : BuyerState) (B : String) (P : ℕ)
    (h : leadCountFor s.leads B P ≤ 1) :
    leadCountFor
      ((buyerSwipeDecision inp.buyerId inp.listing inp.action inp.dwellMs inp.matchScore s).1).leads
      B P ≤ 1 := by
  by_cases hcond : (inp.action = .save ∨ inp.matchScore ≥ 85)
  · rcases hfind : getLeadByBuyerAndProperty s.leads inp.buyerId inp.listing.id with _ | lead
    · have hzero : leadCountFor s.leads inp.buyerId inp.listing.id = 0 :=
        (getLead_none_iff _ _ _).mp hfind
      simp only [buyerSwipeDecision, hcond, if_pos, hfind]
      rw [leadCountFor_append_single]
      by_cases hbp : (B = inp.buyerId ∧ P = inp.listing.id)
      · rcases hbp with ⟨hb1, hp1⟩
        subst hb1; subst hp1
        simp [hzero]
      · have : ¬(inp.buyerId = B ∧ inp.listing.id = P) := by tauto
        simp [this, h]
    · simp only [buyerSwipeDecision, hcond, if_pos, hfind]
      exact h
  · simp only [buyerSwipeDecision, hcond, if_neg, not_false_iff]
    exact h

/-- Any number of `/api/buyer/swipe` requests preserves "at most one lead
per pair". -/
theorem runBuyerSwipes_leadCount (inputs : List SwipeInput) (s : BuyerState) (B : String) (P : ℕ)
    (h : leadCountFor s.leads B P ≤ 1) :
    leadCountFor (runBuyerSwipes inputs s).leads B P ≤ 1 := by
  induction inputs generalizing s with
  | nil => simpa [runBuyerSwipes] using h
  | cons inp rest ih =>
    have hstep := leadCount_step_le inp s B P h
    simpa [runBuyerSwipes] using ih _ hstep

/-- Bumping a tag raises its own count by one and no other count. -/
theorem profLookup_profileBump (m : List (String × ℕ)) (t v : String) :
    profLookup (profileBump m t) v = profLookup m v + (if v = t then 1 else 0) := by
  induction m with
  | nil =>
    by_cases h : v = t
    · subst h; simp [profileBump, profLookup]
    · have ht : ¬t = v := fun hh => h hh.symm
      simp [profileBump, profLookup, h, ht]
  | cons e rest ih =>
    by_cases he : e.1 = t
    · subst he
      by_cases hv : e.1 = v
      · simp [profileBump, profLookup, hv]
      · have hvt : ¬v = e.1 := fun hh => hv hh.symm
        simp [profileBump, profLookup, hv, hvt]
    · by_cases hv : e.1 = v
      · have hvt : ¬v = t := by rw [← hv]; exact he
        simp [profileBump, profLookup, he, hv, hvt]
      · simp [profileBump, profLookup, he, hv, ih]

/-- One `/api/user/stats` loop iteration adds one to the count of the
event's tagged vibe (when it has one) and nothing else. -/
theorem profLookup_vibeCountsStep (m : List (String × ℕ)) (p : Option LegacyProperty) (v : String) :
    profLookup (vibeCountsStep m p) v =
      profLookup m v + (if taggedVibe p = some v then 1 else 0) := by
  match p with
  | none => simp [vibeCountsStep, taggedVibe]
  | some property =>
    by_cases hc : property.vibeTag ≠ "" ∧ property.vibeTag ≠ "Unclassified"
    · rw [vibeCountsStep, if_pos hc, taggedVibe, if_pos hc, profLookup_profileBump]
      by_cases hv : v = property.vibeTag
      · simp [hv]
      · have : ¬property.vibeTag = v := fun hh => hv hh.symm
        simp [hv, this]
    · rw [vibeCountsStep, if_neg hc, taggedVibe, if_neg hc]
      simp

/-- Unfolding the `/api/user/stats` counting fold over any accumulator. -/
theorem profLookup_vibeCounts_fold (l : List (Option LegacyProperty))
    (acc : List (String × ℕ)) (v : String) :
    profLookup (l.foldl vibeCountsStep acc) v =
      profLookup acc v + l.countP (fun p => taggedVibe p == some v) := by
  induction l generalizing acc with
  | nil => simp
  | cons p rest ih =>
    rw [List.foldl_cons, ih, profLookup_vibeCountsStep, List.countP_cons]
    by_cases h : taggedVibe p = some v
    · simp [h]
      omega
    · simp [h]

/-- The count `/api/user/stats` accumulates for a vibe is the number of
right-swipe events tagged with that vibe. -/
theorem vibeCounts_lookup (l : List (Option LegacyProperty)) (v : String) :
    profLookup (vibeCounts l) v = l.countP (fun p => taggedVibe p == some v) := by
  rw [vibeCounts, profLookup_vibeCounts_fold]
  simp [profLookup]

/-- A pair's count never exceeds the sum of all counts. -/
theorem profLookup_le_sum (p : List (String × ℕ)) (k : String) :
    profLookup p k ≤ (p.map (fun e => e.2)).sum := by
  induction p with
  | nil => simp [profLookup]
  | cons e rest ih =>
    by_cases h : e.1 = k
    · simp [profLookup, h]
    · simp only [profLookup, h, if_neg, not_false_iff, List.map_cons, List.sum_cons]
      omega

/-- With positive counts, a truthy lookup is exactly key membership. -/
theorem profLookup_ne_zero_iff (p : List (String × ℕ)) (k : String)
    (hpos : ∀ e ∈ p, 0 < e.2) :
    profLookup p k ≠ 0 ↔ k ∈ p.map (fun e => e.1) := by
  induction p with
  | nil => simp [profLookup]
  | cons e rest ih =>
    have he : 0 < e.2 := hpos e (by simp)
    have hrest : ∀ x ∈ rest, 0 < x.2 := fun x hx => hpos x (by simp [hx])
    by_cases h : e.1 = k
    · subst h
      simp [profLookup]
      omega
    · have hk : ¬k = e.1 := fun hh => h hh.symm
      simp [profLookup, h, hk, ih hrest]

/-- Every block of `computeMatchScore` contributes at most its own
`maxScore` increment. -/
theorem aspect_fst_le_snd (property : ConsumerProperty) (f : OnboardingData) :
    (vibeAspect property f).1 ≤ (vibeAspect property f).2 ∧
    (bedroomAspect property f).1 ≤ (bedroomAspect property f).2 ∧
    (priceAspect property f).1 ≤ (priceAspect property f).2 ∧
    (mustHaveAspect property f).1 ≤ (mustHaveAspect property f).2 ∧
    (underBudgetAspect property f).1 ≤ (underBudgetAspect property f).2 ∧
    (bedroomBonusAspect property f).1 ≤ (bedroomBonusAspect property f).2 := by
  refine ⟨?_, ?_, ?_, ?_, ?_, ?_⟩
  · rw [vibeAspect]; split_ifs <;> simp
  · rw [bedroomAspect]; split_ifs <;> simp
  · rw [priceAspect]; split_ifs <;> simp
  · rw [mustHaveAspect]; split_ifs with h
    · simp only
      have := List.length_filter_le (fun tag => property.tags.contains tag) f.mustHaves
      omega
    · simp
  · rw [underBudgetAspect]; split_ifs <;> simp
  · rw [bedroomBonusAspect]; split_ifs <;> simp

/-- The accumulated score never exceeds the accumulated `maxScore`. -/
theorem matchScoreParts_fst_le_snd (property : ConsumerProperty) (f : OnboardingData) :
    (matchScoreParts property f).1 ≤ (matchScoreParts property f).2 := by
  obtain ⟨h1, h2, h3, h4, h5, h6⟩ := aspect_fst_le_snd property f
  rw [matchScoreParts]
  dsimp only
  omega

/-- The accumulated `maxScore` is at least 70 (bedrooms 30 + price 30 + the
two always-counted 5-point bonus slots), hence positive. -/
theorem matchScoreParts_snd_pos (property : ConsumerProperty) (f : OnboardingData) :
    70 ≤ (matchScoreParts property f).2 := by
  rw [matchScoreParts]
  dsimp only
  rw [bedroomAspect, priceAspect, underBudgetAspect, bedroomBonusAspect]
  split_ifs <;> simp <;> omega

/-- Claim C1: for every (buyer, listing) pair at most one Lead ever exists
over any sequence of `/api/buyer/swipe` requests starting from an empty
store, and whenever a Lead already exists for the pair, a further swipe on
it — qualifying or not — stores no new Lead, stores no new Notification,
and answers `leadCreated = false`. -/
theorem lead_deduplication :
    (∀ (inputs : List SwipeInput) (B : String) (P : ℕ),
        leadCountFor (runBuyerSwipes inputs emptyBuyerState).leads B P ≤ 1) ∧
    (∀ (s : BuyerState) (b : String) (li : BuyerProperty) (a : BuyerSwipeAction) (d : ℕ) (m : ℤ),
        (getLeadByBuyerAndProperty s.leads b li.id).isSome = true →
        (buyerSwipeDecision b li a d m s).1.leads = s.leads ∧
        (buyerSwipeDecision b li a d m s).1.notifications = s.notifications ∧
        (buyerSwipeDecision b li a d m s).2.leadCreated = false) := by
  constructor
  · intro inputs B P
    exact runBuyerSwipes_leadCount inputs emptyBuyerState B P (by simp [emptyBuyerState, leadCountFor])
  · intro s b li a d m hdup
    rcases hfind : getLeadByBuyerAndProperty s.leads b li.id with _ | lead
    · rw [hfind] at hdup
      simp at hdup
    · by_cases hcond : (a = BuyerSwipeAction.save ∨ m ≥ 85)
      · simp [buyerSwipeDecision, hcond, hfind]
      · simp [buyerSwipeDecision, hcond]

/-- Witness for C1: with a lead already stored for (`"b"`, listing 1), a
second qualifying like with score 90 changes neither the lead store nor the
notification store and reports `leadCreated = false`. -/
theorem lead_deduplication_witness :
    (getLeadByBuyerAndProperty dupState.leads "b" listingMonarch.id).isSome = true ∧
    ((buyerSwipeDecision "b" listingMonarch .like 0 90 dupState).1.leads = dupState.leads ∧
     (buyerSwipeDecision "b" listingMonarch .like 0 90 dupState).1.notifications = dupState.notifications ∧
     (buyerSwipeDecision "b" listingMonarch .like 0 90 dupState).2.leadCreated = false) :=
  ⟨by decide, lead_deduplication.2 dupState "b" listingMonarch .like 0 90 (by decide)⟩

/-- At the decision tail in isolation, a `nope` (and likewise a `skip`)
with match score 90 on a fresh pair creates a Lead: the guard tests only
the action being `save` or the score reaching 85. -/
theorem lead_creation_guard_admits_any_action :
    (buyerSwipeDecision "b" listingMonarch .nope 0 90 emptyBuyerState).2.leadCreated = true ∧
    (buyerSwipeDecision "b" listingMonarch .skip 0 90 emptyBuyerState).2.leadCreated = true := by
  decide

/-- Exact characterization of the lead-creation guard: a Lead is created
exactly when no Lead exists for the pair and the action is `save` or the
match score is at least 85, with no positive-signal restriction. -/
theorem lead_creation_condition (s : BuyerState) (b : String) (li : BuyerProperty)
    (a : BuyerSwipeAction) (d : ℕ) (m : ℤ) :
    (buyerSwipeDecision b li a d m s).2.leadCreated = true ↔
      ((a = .save ∨ m ≥ 85) ∧ getLeadByBuyerAndProperty s.leads b li.id = none) := by
  by_cases hcond : (a = BuyerSwipeAction.save ∨ m ≥ 85)
  · rcases hfind : getLeadByBuyerAndProperty s.leads b li.id with _ | lead
    · simp [buyerSwipeDecision, hcond, hfind]
    · simp [buyerSwipeDecision, hcond, hfind]
  · simp [buyerSwipeDecision, hcond]

/-- Claim C2: the claim is right and the code is wrong at this failing
input.  Buyer `"b"` earlier liked the Monarch listing 2, so the modelled
pipeline scores the Monarch listing 1 at 100; on a `nope` — an explicit
rejection — the handler's guard (`action === "save" || matchScore >= 85`,
which drops the positive-signal conjunct of the decision policy) still
creates a new Lead for the pair and stores a notification; a `skip` does
the same. -/
theorem nope_swipe_creates_lead :
    ((processBuyerSwipe "b" listingMonarch .nope 0 demoListingStore priorLikeState).2.matchScore = 100 ∧
     (processBuyerSwipe "b" listingMonarch .nope 0 demoListingStore priorLikeState).2.leadCreated = true ∧
     (processBuyerSwipe "b" listingMonarch .nope 0 demoListingStore priorLikeState).1.leads =
       priorLikeState.leads ++ [{ propertyId := 1, buyerId := "b", matchScore := 100 }] ∧
     (processBuyerSwipe "b" listingMonarch .nope 0 demoListingStore priorLikeState).1.notifications =
       priorLikeState.notifications ++
         [{ recipientId := some "agent-1", priority := "critical", matchScore := 100 }]) ∧
    (processBuyerSwipe "b" listingMonarch .skip 0 demoListingStore priorLikeState).2.leadCreated = true := by
  have hlv : getListingVector listingMonarch =
      some [("Monarch", 1), ("Industrialist", 0), ("Purist", 0), ("Naturalist", 0),
            ("Futurist", 0), ("Curator", 0), ("Nomad", 0), ("Classicist", 0)] := by
    simp +decide [getListingVector, getTopVibeFromProperty, listingMonarch, VIBES]
  have hscoreN :
      computeVectorMatchScore
        (computeBuyerVibeVector
          [{ action := .like, vibe := some "Monarch" }, { action := .nope, vibe := some "Monarch" }]).vector
        (getListingVector listingMonarch) = 100 := by
    have h1 : (computeBuyerVibeVector
        [{ action := .like, vibe := some "Monarch" }, { action := .nope, vibe := some "Monarch" }]).vector =
        [("Monarch", 1), ("Industrialist", 0), ("Purist", 0), ("Naturalist", 0),
         ("Futurist", 0), ("Curator", 0), ("Nomad", 0), ("Classicist", 0)] := by
      simp +decide [computeBuyerVibeVector, actionWeight, VIBES]
    rw [h1, hlv, computeVectorMatchScore]
    simp +decide [vecGet]
    norm_num [jsRound]
  have hscoreS :
      computeVectorMatchScore
        (computeBuyerVibeVector
          [{ action := .like, vibe := some "Monarch" }, { action := .skip, vibe := some "Monarch" }]).vector
        (getListingVector listingMonarch) = 100 := by
    have h1 : (computeBuyerVibeVector
        [{ action := .like, vibe := some "Monarch" }, { action := .skip, vibe := some "Monarch" }]).vector =
        [("Monarch", 1), ("Industrialist", 0), ("Purist", 0), ("Naturalist", 0),
         ("Futurist", 0), ("Curator", 0), ("Nomad", 0), ("Classicist", 0)] := by
      simp +decide [computeBuyerVibeVector, actionWeight, VIBES]
    rw [h1, hlv, computeVectorMatchScore]
    simp +decide [vecGet]
    norm_num [jsRound]
  have hev : ∀ a : BuyerSwipeAction,
      ((priorLikeState.events ++
          [({ buyerId := "b", listingId := listingMonarch.id, action := a,
              dwellMs := 0 } : SwipeEventRec)]).filter
            (fun e => e.buyerId == "b")).map
        (fun e => ({ action := e.action,
                     vibe := (demoListingStore e.listingId).bind getTopVibeFromProperty } :
                   BuyerVibeEvent)) =
      [{ action := .like, vibe := some "Monarch" }, { action := a, vibe := some "Monarch" }] := by
    intro a
    cases a <;> decide
  constructor
  · rw [processBuyerSwipe_eq, hev .nope, hscoreN]
    decide
  · rw [processBuyerSwipe_eq, hev .skip, hscoreS]
    decide

/-- Claim C3: with no pre-existing Lead for the pair, a positive-signal
swipe with match score exactly 85 creates a Lead with `hotLead = false`
(notification priority `high`), and one with score exactly 95 creates a
Lead with `hotLead = true` (notification priority `critical`). -/
theorem boundary_thresholds (s : BuyerState) (b : String) (li : BuyerProperty)
    (a : BuyerSwipeAction) (d : ℕ)
    (hpos : a = .like ∨ a = .save)
    (hno : getLeadByBuyerAndProperty s.leads b li.id = none) :
    ((buyerSwipeDecision b li a d 85 s).2.leadCreated = true ∧
     (buyerSwipeDecision b li a d 85 s).2.hotLead = false ∧
     (buyerSwipeDecision b li a d 85 s).1.leads =
       s.leads ++ [{ propertyId := li.id, buyerId := b, matchScore := 85 }] ∧
     (buyerSwipeDecision b li a d 85 s).1.notifications =
       s.notifications ++ [{ recipientId := li.agentId, priority := "high", matchScore := 85 }]) ∧
    ((buyerSwipeDecision b li a d 95 s).2.leadCreated = true ∧
     (buyerSwipeDecision b li a d 95 s).2.hotLead = true ∧
     (buyerSwipeDecision b li a d 95 s).1.leads =
       s.leads ++ [{ propertyId := li.id, buyerId := b, matchScore := 95 }] ∧
     (buyerSwipeDecision b li a d 95 s).1.notifications =
       s.notifications ++ [{ recipientId := li.agentId, priority := "critical", matchScore := 95 }]) := by
  have h85 : (a = BuyerSwipeAction.save ∨ (85 : ℤ) ≥ 85) := Or.inr (by norm_num)
  have h95 : (a = BuyerSwipeAction.save ∨ (95 : ℤ) ≥ 85) := Or.inr (by norm_num)
  constructor
  · simp [buyerSwipeDecision, h85, hno]
  · simp [buyerSwipeDecision, h95, hno]

/-- Witness for C3: a fresh like at exactly 85 and at exactly 95 on a
concrete listing. -/
theorem boundary_thresholds_witness :
    ((buyerSwipeDecision "b" listingMonarch .like 0 85 emptyBuyerState).2.leadCreated = true ∧
     (buyerSwipeDecision "b" listingMonarch .like 0 85 emptyBuyerState).2.hotLead = false ∧
     (buyerSwipeDecision "b" listingMonarch .like 0 85 emptyBuyerState).1.leads =
       emptyBuyerState.leads ++ [{ propertyId := listingMonarch.id, buyerId := "b", matchScore := 85 }] ∧
     (buyerSwipeDecision "b" listingMonarch .like 0 85 emptyBuyerState).1.notifications =
       emptyBuyerState.notifications ++
         [{ recipientId := listingMonarch.agentId, priority := "high", matchScore := 85 }]) ∧
    ((buyerSwipeDecision "b" listingMonarch .like 0 95 emptyBuyerState).2.leadCreated = true ∧
     (buyerSwipeDecision "b" listingMonarch .like 0 95 emptyBuyerState).2.hotLead = true ∧
     (buyerSwipeDecision "b" listingMonarch .like 0 95 emptyBuyerState).1.leads =
       emptyBuyerState.leads ++ [{ propertyId := listingMonarch.id, buyerId := "b", matchScore := 95 }] ∧
     (buyerSwipeDecision "b" listingMonarch .like 0 95 emptyBuyerState).1.notifications =
       emptyBuyerState.notifications ++
         [{ recipientId := listingMonarch.agentId, priority := "critical", matchScore := 95 }]) :=
  boundary_thresholds emptyBuyerState "b" listingMonarch .like 0 (Or.inl rfl) (by decide)

/-- Claim C4 counterexample: on the legacy `/api/swipe` path a right swipe
with match score exactly 95 — at the hot threshold, so the claim demands a
`critical` notification — gets a `high` notification instead (the code
compares with strict `> 95`). -/
theorem notification_priority_cex :
    (legacySwipeParsed
        { propertyId := 1, direction := .right, userName := none, matchScore := 95, matchedTags := none }
        legacyPropMonarch emptyLegacyState).2 =
      some { recipientId := "agent-1", priority := "high", matchScore := 95 } ∧
    (95 : ℚ) ≥ 95 ∧ "high" ≠ "critical" := by
  refine ⟨by decide, by norm_num, by decide⟩

/-- Claim C4 (amended): on `/api/buyer/swipe` a notification is stored
exactly when a new Lead is created, with priority `critical` when the score
is at least 95 and `high` otherwise (so a save-bypass Lead with score below
85 still gets `high`); on the legacy `/api/swipe` path a notification is
returned exactly when the swipe is a right swipe with score strictly above
85, with priority `critical` exactly when the score is strictly above 95 —
at exactly 95 the priority is `high`, and at exactly 85 no notification is
emitted. -/
theorem notification_priority_mapping :
    (∀ (s : BuyerState) (b : String) (li : BuyerProperty) (a : BuyerSwipeAction) (d : ℕ) (m : ℤ),
        (buyerSwipeDecision b li a d m s).1.notifications =
          (if (a = .save ∨ m ≥ 85) ∧ getLeadByBuyerAndProperty s.leads b li.id = none then
            s.notifications ++
              [{ recipientId := li.agentId,
                 priority := if m ≥ 95 then "critical" else "high",
                 matchScore := m }]
          else s.notifications)) ∧
    (∀ (parsed : ParsedSwipe) (property : LegacyProperty) (s : LegacyState),
        (legacySwipeParsed parsed property s).2 =
          (if parsed.direction = .right ∧ parsed.matchScore > 85 then
            some { recipientId := property.agentId,
                   priority := if parsed.matchScore > 95 then "critical" else "high",
                   matchScore := parsed.matchScore }
          else none)) := by
  constructor
  · intro s b li a d m
    by_cases hcond : (a = BuyerSwipeAction.save ∨ m ≥ 85)
    · rcases hfind : getLeadByBuyerAndProperty s.leads b li.id with _ | lead
      · simp [buyerSwipeDecision, hcond, hfind]
      · simp [buyerSwipeDecision, hcond, hfind]
    · simp [buyerSwipeDecision, hcond]
  · intro parsed property s
    by_cases hcond : (parsed.direction = SwipeDirection.right ∧ parsed.matchScore > 85)
    · simp [legacySwipeParsed, hcond]
    · simp [legacySwipeParsed, hcond]

/-- Claim C5 counterexample: on a listing whose only signal is the
`Unclassified` tag (no breakdown, no stored vector) the computed score is 0,
yet a `save` still creates a Lead, so "no Lead is created regardless of the
action taken" is false on the code. -/
theorem unscoreable_listing_cex :
    getListingVector listingUnclassified = none ∧
    computeVectorMatchScore [] (getListingVector listingUnclassified) = 0 ∧
    (buyerSwipeDecision "b" listingUnclassified .save 0
        (computeVectorMatchScore [] (getListingVector listingUnclassified))
        emptyBuyerState).2.leadCreated = true := by
  decide

/-- Claim C5 (amended): for a listing whose only archetype signal is the tag
`Unclassified` (no breakdown, no stored vector) the Listing Vector Deriver
returns no vector, the Match Scorer returns the defined score 0 for every
buyer profile without failing, and no Lead is created for a `like`, `nope`
or `skip` on that listing — but a `save` still creates a Lead through the
save bypass. -/
theorem unscoreable_listing (li : BuyerProperty)
    (hvec : li.vibeVector = none) (htop : li.vibeTop = []) (htag : li.vibeTag = "Unclassified") :
    getListingVector li = none ∧
    (∀ profile, computeVectorMatchScore profile (getListingVector li) = 0) ∧
    (∀ (s : BuyerState) (b : String) (d : ℕ) (a : BuyerSwipeAction)
        (profile : List (String × ℚ)), a ≠ .save →
        (buyerSwipeDecision b li a d
            (computeVectorMatchScore profile (getListingVector li)) s).1.leads = s.leads ∧
        (buyerSwipeDecision b li a d
            (computeVectorMatchScore profile (getListingVector li)) s).2.leadCreated = false) := by
  have hnone : getListingVector li = none := by
    rw [getListingVector, hvec, getTopVibeFromProperty, htop, htag]
    decide
  refine ⟨hnone, ?_, ?_⟩
  · intro profile
    rw [hnone, computeVectorMatchScore]
  · intro s b d a profile ha
    have hscore : computeVectorMatchScore profile (getListingVector li) = 0 := by
      rw [hnone, computeVectorMatchScore]
    rw [hscore]
    simp +decide [buyerSwipeDecision, ha]

/-- Witness for C5 (amended): the concrete `Unclassified` listing with a
`like` swipe. -/
theorem unscoreable_listing_witness :
    getListingVector listingUnclassified = none ∧
    computeVectorMatchScore [("Monarch", 3)] (getListingVector listingUnclassified) = 0 ∧
    ((buyerSwipeDecision "b" listingUnclassified .like 0
        (computeVectorMatchScore [("Monarch", 3)] (getListingVector listingUnclassified))
        emptyBuyerState).1.leads = emptyBuyerState.leads ∧
     (buyerSwipeDecision "b" listingUnclassified .like 0
        (computeVectorMatchScore [("Monarch", 3)] (getListingVector listingUnclassified))
        emptyBuyerState).2.leadCreated = false) := by
  obtain ⟨h1, h2, h3⟩ := unscoreable_listing listingUnclassified rfl rfl rfl
  exact ⟨h1, h2 _, h3 emptyBuyerState "b" 0 .like _ (by decide)⟩

/-- Claim C6 counterexample: two right swipes on a Monarch and a Purist
listing — counts tied at one each.  Reading the same two events in the
opposite order is a permutation, yet the derived top vibe flips from
`Monarch` to `Purist`: ties are broken by first occurrence in the event
list, not by the fixed archetype enumeration order. -/
theorem profile_order_independence_cex :
    [some legacyPropMonarch, some legacyPropPurist].Perm
      [some legacyPropPurist, some legacyPropMonarch] ∧
    statsTopVibe [some legacyPropMonarch, some legacyPropPurist] = some "Monarch" ∧
    statsTopVibe [some legacyPropPurist, some legacyPropMonarch] = some "Purist" := by
  refine ⟨List.Perm.swap _ _ _, by decide, by decide⟩

/-- Claim C6 (amended): the aggregated per-archetype counts and the tagged
total of `/api/user/stats` are order-independent — every permutation of the
event list yields the same count for every vibe — but the derived sorted
top list is only sorted by count descending with ties kept in first-
occurrence order of the event list, so the top-N list (and `topVibe`) may
differ between permutations when counts tie. -/
theorem profile_counts_order_independent (l1 l2 : List (Option LegacyProperty))
    (hperm : l1.Perm l2) :
    (∀ v, profLookup (vibeCounts l1) v = profLookup (vibeCounts l2) v) ∧
    totalTagged l1 = totalTagged l2 := by
  constructor
  · intro v
    rw [vibeCounts_lookup, vibeCounts_lookup]
    exact hperm.countP_eq _
  · rw [totalTagged, totalTagged]
    exact (hperm.filter _).length_eq

/-- Witness for C6 (amended): the two concrete permuted event lists have
identical Monarch and Purist counts and identical totals. -/
theorem profile_counts_order_independent_witness :
    (profLookup (vibeCounts [some legacyPropMonarch, some legacyPropPurist]) "Monarch" =
       profLookup (vibeCounts [some legacyPropPurist, some legacyPropMonarch]) "Monarch" ∧
     profLookup (vibeCounts [some legacyPropMonarch, some legacyPropPurist]) "Purist" =
       profLookup (vibeCounts [some legacyPropPurist, some legacyPropMonarch]) "Purist") ∧
    totalTagged [some legacyPropMonarch, some legacyPropPurist] =
      totalTagged [some legacyPropPurist, some legacyPropMonarch] :=
  ⟨⟨(profile_counts_order_independent _ _ (List.Perm.swap _ _ _)).1 "Monarch",
    (profile_counts_order_independent _ _ (List.Perm.swap _ _ _)).1 "Purist"⟩,
   (profile_counts_order_independent _ _ (List.Perm.swap _ _ _)).2⟩

/-- Every listed archetype name is truthy and distinct from `Unclassified`. -/
theorem vibes_wellformed : ∀ t ∈ VIBES, t ≠ "" ∧ t ≠ "Unclassified" := by decide

/-- Claim C7: over a session taste profile mapping archetypes to positive
counts with `totalSwipes` their sum, the ranking score of a listing equals
`round(100 * count[tag] / totalSwipes)` exactly when the listing's tag is
one of the counted archetypes and is not `Unclassified`, equals 0
otherwise, and is always an integer in [0, 100]. -/
theorem legacy_taste_score (profile : List (String × ℕ)) (tag : String)
    (hkeys : ∀ e ∈ profile, e.1 ∈ VIBES ∧ 0 < e.2) :
    (tasteScore profile tag =
       if tag ∈ profile.map (fun e => e.1) ∧ tag ≠ "Unclassified" then
         jsRound (100 * (profLookup profile tag : ℚ) / (((profile.map (fun e => e.2)).sum : ℕ) : ℚ))
       else 0) ∧
    0 ≤ tasteScore profile tag ∧ tasteScore profile tag ≤ 100 := by
  have hpos : ∀ e ∈ profile, 0 < e.2 := fun e he => (hkeys e he).2
  by_cases hmem : tag ∈ profile.map (fun e => e.1) ∧ tag ≠ "Unclassified"
  · obtain ⟨hin, hnu⟩ := hmem
    obtain ⟨e, he, hetag⟩ := List.mem_map.mp hin
    have htv : tag ∈ VIBES := hetag ▸ (hkeys e he).1
    have hne : tag ≠ "" := (vibes_wellformed tag htv).1
    have hlk : profLookup profile tag ≠ 0 := (profLookup_ne_zero_iff profile tag hpos).mpr hin
    have hsum : profLookup profile tag ≤ (profile.map (fun e => e.2)).sum :=
      profLookup_le_sum profile tag
    have hsum0 : 0 < (profile.map (fun e => e.2)).sum := by omega
    have hval : tasteScore profile tag =
        jsRound ((profLookup profile tag : ℚ) / (((profile.map (fun e => e.2)).sum : ℕ) : ℚ) * 100) := by
      simp only [tasteScore]
      have h1 : (if tag = "" then "Unclassified" else tag) = tag := if_neg hne
      rw [h1, if_pos (⟨hnu, hlk⟩ : ¬tag = "Unclassified" ∧ ¬profLookup profile tag = 0)]
    refine ⟨?_, ?_, ?_⟩
    · rw [hval, if_pos ⟨hin, hnu⟩]
      congr 1
      ring
    · rw [hval]
      exact (jsRound_ratio_bounds _ _ hsum hsum0).1
    · rw [hval]
      exact (jsRound_ratio_bounds _ _ hsum hsum0).2
  · have hzero : tasteScore profile tag = 0 := by
      rw [tasteScore]
      by_cases he : tag = ""
      · have : profLookup profile "Unclassified" = 0 := by
          by_contra hcon
          have := (profLookup_ne_zero_iff profile "Unclassified" hpos).mp hcon
          obtain ⟨e, hmm, hetag⟩ := List.mem_map.mp this
          exact (vibes_wellformed e.1 (hkeys e hmm).1).2 hetag
        simp [he, this]
      · rcases not_and_or.mp hmem with hnin | hnu
        · have : profLookup profile tag = 0 := by
            by_contra hcon
            exact hnin ((profLookup_ne_zero_iff profile tag hpos).mp hcon)
          simp [he, this]
        · have hu : tag = "Unclassified" := not_not.mp hnu
          simp [he, hu]
    rw [hzero, if_neg hmem]
    norm_num

/-- Witness for C7: the 7-Monarch / 3-Purist session profile scored against
a Monarch listing. -/
theorem legacy_taste_score_witness :
    (tasteScore [("Monarch", 7), ("Purist", 3)] "Monarch" =
       if "Monarch" ∈ ([("Monarch", 7), ("Purist", 3)] : List (String × ℕ)).map (fun e => e.1) ∧
           "Monarch" ≠ "Unclassified" then
         jsRound (100 * (profLookup [("Monarch", 7), ("Purist", 3)] "Monarch" : ℚ) /
           (((([("Monarch", 7), ("Purist", 3)] : List (String × ℕ)).map (fun e => e.2)).sum : ℕ) : ℚ))
       else 0) ∧
    0 ≤ tasteScore [("Monarch", 7), ("Purist", 3)] "Monarch" ∧
    tasteScore [("Monarch", 7), ("Purist", 3)] "Monarch" ≤ 100 :=
  legacy_taste_score [("Monarch", 7), ("Purist", 3)] "Monarch" (by decide)

/-- Claim C8: `computeMatchScore` is total — for every property and every
onboarding filter object it returns an integer in [0, 100], and with null
filters it returns 0 — and the `/api/swipe` boundary only accepts bodies
whose `matchScore` lies in [0, 100]. -/
theorem match_score_total_bounded :
    (∀ (property : ConsumerProperty) (f : OnboardingData),
        0 ≤ computeMatchScore property (some f) ∧ computeMatchScore property (some f) ≤ 100) ∧
    (∀ property : ConsumerProperty, computeMatchScore property none = 0) ∧
    (∀ body : SwipeBody, (swipeSchemaParse body).isSome = true →
        0 ≤ body.matchScore ∧ body.matchScore ≤ 100) := by
  refine ⟨?_, ?_, ?_⟩
  · intro property f
    have hle := matchScoreParts_fst_le_snd property f
    have hpos : 0 < (matchScoreParts property f).2 := by
      have := matchScoreParts_snd_pos property f
      omega
    simpa [computeMatchScore] using jsRound_ratio_bounds _ _ hle hpos
  · intro property
    rfl
  · intro body h
    rw [swipeSchemaParse] at h
    by_cases hl : body.direction = "left"
    · rw [if_pos hl] at h
      dsimp only at h
      split_ifs at h with hrange
      · exact hrange
      · simp at h
    · by_cases hr : body.direction = "right"
      · rw [if_neg hl, if_pos hr] at h
        dsimp only at h
        split_ifs at h with hrange
        · exact hrange
        · simp at h
      · rw [if_neg hl, if_neg hr] at h
        simp at h

/-- Witness for C8: the sample property against the wizard's default
filters, and a concrete accepted body with score 90. -/
theorem match_score_total_bounded_witness :
    (0 ≤ computeMatchScore sampleProperty (some defaultFilters) ∧
     computeMatchScore sampleProperty (some defaultFilters) ≤ 100) ∧
    computeMatchScore sampleProperty none = 0 ∧
    (0 ≤ okSwipeBody.matchScore ∧ okSwipeBody.matchScore ≤ 100) :=
  ⟨match_score_total_bounded.1 sampleProperty defaultFilters,
   match_score_total_bounded.2.1 sampleProperty,
   match_score_total_bounded.2.2 okSwipeBody (by decide)⟩

/-- The legacy handler's session profile is exactly `updateTasteProfile` of
the old one, whether or not a notification fires. -/
theorem legacySwipeParsed_tasteProfile (parsed : ParsedSwipe) (property : LegacyProperty)
    (s : LegacyState) :
    (legacySwipeParsed parsed property s).1.tasteProfile =
      updateTasteProfile parsed.direction property.vibeTag s.tasteProfile := by
  rw [legacySwipeParsed]
  split_ifs <;> rfl

/-- Claim C9: one legacy `/api/swipe` bumps the session counter of the
listing's tag by exactly one precisely when the swipe is a right swipe and
the tag is a known archetype, leaves every other archetype counter
unchanged, and leaves the whole profile unchanged on a left swipe or an
`Unclassified` (or otherwise non-archetype) listing. -/
theorem taste_profile_frame (parsed : ParsedSwipe) (property : LegacyProperty) (s : LegacyState)
    (htag : property.vibeTag ∈ VIBES ∨ property.vibeTag = "Unclassified") :
    ((parsed.direction = .right ∧ property.vibeTag ∈ VIBES) →
      profLookup (legacySwipeParsed parsed property s).1.tasteProfile property.vibeTag =
        profLookup s.tasteProfile property.vibeTag + 1 ∧
      (∀ v, v ≠ property.vibeTag →
        profLookup (legacySwipeParsed parsed property s).1.tasteProfile v =
          profLookup s.tasteProfile v)) ∧
    (¬(parsed.direction = .right ∧ property.vibeTag ∈ VIBES) →
      (legacySwipeParsed parsed property s).1.tasteProfile = s.tasteProfile) := by
  rw [legacySwipeParsed_tasteProfile parsed property s]
  constructor
  · rintro ⟨hdir, hv⟩
    obtain ⟨hne, hnu⟩ := vibes_wellformed property.vibeTag hv
    rw [updateTasteProfile, if_pos ⟨hdir, hne, hnu⟩]
    constructor
    · rw [profLookup_profileBump]
      simp
    · intro v hvne
      rw [profLookup_profileBump, if_neg hvne]
      simp
  · intro hnot
    rw [updateTasteProfile]
    rcases htag with hv | hu
    · have hdir : ¬parsed.direction = SwipeDirection.right := fun hd => hnot ⟨hd, hv⟩
      rw [if_neg (by tauto)]
    · rw [if_neg (by simp [hu])]

/-- Witness for C9: a right swipe on the Monarch listing bumps the Monarch
counter from 0 to 1 and leaves the Purist counter at 0; a left swipe leaves
the profile untouched. -/
theorem taste_profile_frame_witness :
    (profLookup (legacySwipeParsed
        { propertyId := 1, direction := .right, userName := none, matchScore := 50, matchedTags := none }
        legacyPropMonarch emptyLegacyState).1.tasteProfile "Monarch" =
      profLookup emptyLegacyState.tasteProfile "Monarch" + 1) ∧
    (profLookup (legacySwipeParsed
        { propertyId := 1, direction := .right, userName := none, matchScore := 50, matchedTags := none }
        legacyPropMonarch emptyLegacyState).1.tasteProfile "Purist" =
      profLookup emptyLegacyState.tasteProfile "Purist") ∧
    ((legacySwipeParsed
        { propertyId := 1, direction := .left, userName := none, matchScore := 50, matchedTags := none }
        legacyPropMonarch emptyLegacyState).1.tasteProfile = emptyLegacyState.tasteProfile) :=
  ⟨((taste_profile_frame _ legacyPropMonarch emptyLegacyState (by decide)).1
      ⟨rfl, by decide⟩).1,
   ((taste_profile_frame _ legacyPropMonarch emptyLegacyState (by decide)).1
      ⟨rfl, by decide⟩).2 "Purist" (by decide),
   (taste_profile_frame _ legacyPropMonarch emptyLegacyState (by decide)).2 (by decide)⟩

/-- Claim C10: the `hotLead` field of the `/api/buyer/swipe` response equals
`matchScore >= 95` computed from the score alone — in particular it is
`true` with `leadCreated = false` whenever a lead already exists for the
pair — while the notification stored in the creation branch carries priority
`critical` exactly when the same `matchScore >= 95` test holds. -/
theorem hot_lead_flag_independent (s : BuyerState) (b : String) (li : BuyerProperty)
    (a : BuyerSwipeAction) (d : ℕ) (m : ℤ) :
    ((buyerSwipeDecision b li a d m s).2.hotLead = decide (m ≥ 95)) ∧
    ((getLeadByBuyerAndProperty s.leads b li.id).isSome = true →
      (buyerSwipeDecision b li a d m s).2.leadCreated = false) ∧
    ((getLeadByBuyerAndProperty s.leads b li.id = none ∧ (a = .save ∨ m ≥ 85)) →
      (buyerSwipeDecision b li a d m s).1.notifications =
        s.notifications ++
          [{ recipientId := li.agentId,
             priority := if m ≥ 95 then "critical" else "high",
             matchScore := m }]) := by
  refine ⟨?_, ?_, ?_⟩
  · by_cases hcond : (a = BuyerSwipeAction.save ∨ m ≥ 85)
    · rcases hfind : getLeadByBuyerAndProperty s.leads b li.id with _ | lead
      · simp [buyerSwipeDecision, hcond, hfind]
      · simp [buyerSwipeDecision, hcond, hfind]
    · simp [buyerSwipeDecision, hcond]
  · intro hdup
    rcases hfind : getLeadByBuyerAndProperty s.leads b li.id with _ | lead
    · rw [hfind] at hdup
      simp at hdup
    · by_cases hcond : (a = BuyerSwipeAction.save ∨ m ≥ 85)
      · simp [buyerSwipeDecision, hcond, hfind]
      · simp [buyerSwipeDecision, hcond]
  · rintro ⟨hfind, hcond⟩
    simp [buyerSwipeDecision, hcond, hfind]

/-- Witness for C10: with a lead already stored for the pair and a score of
96, the response reports `hotLead = true` yet `leadCreated = false`; on a
fresh pair the stored notification is `critical`. -/
theorem hot_lead_flag_independent_witness :
    ((buyerSwipeDecision "b" listingMonarch .like 0 96 dupState).2.hotLead = true ∧
     (buyerSwipeDecision "b" listingMonarch .like 0 96 dupState).2.leadCreated = false) ∧
    (buyerSwipeDecision "b" listingMonarch .like 0 96 emptyBuyerState).1.notifications =
      emptyBuyerState.notifications ++
        [{ recipientId := listingMonarch.agentId, priority := "critical", matchScore := 96 }] :=
  ⟨⟨((hot_lead_flag_independent dupState "b" listingMonarch .like 0 96).1).trans (by decide),
    (hot_lead_flag_independent dupState "b" listingMonarch .like 0 96).2.1 (by decide)⟩,
   by
    have h := (hot_lead_flag_independent emptyBuyerState "b" listingMonarch .like 0 96).2.2
      ⟨by decide, Or.inr (by norm_num)⟩
    rw [h]
    norm_num⟩

end TasteToLead
